import Mathlib

/-!
Verification development for the eggnest retirement-simulation engine.

The Python source (api/eggnest/{rmd,holdings,returns,simulation}.py) is
shallowly embedded below.  Monetary quantities, returns and balances are
Python floats in the source; we model them as rationals (ℚ).  All numpy
array operations used by the source (minimum, maximum, where, divide,
elementwise arithmetic) act independently on each simulation coordinate,
so per-path state is modelled by scalars and whole-run state by functions
from path indices.
-/

/- ===================== rmd.py ===================== -/

/-- Generic dictionary lookup with a default value, mirroring Python's
`dict.get(key, default)` over an association list. -/
def dict_get {α β : Type} [DecidableEq α] (l : List (α × β)) (k : α) (dflt : β) : β :=
  match l with
  | [] => dflt
  | (a, v) :: rest => if k = a then v else dict_get rest k dflt

/-- IRS Uniform Lifetime Table from rmd.py (age ↦ distribution period). -/
def UNIFORM_LIFETIME_TABLE : List (ℕ × ℚ) :=
  [(72, 27.4), (73, 26.5), (74, 25.5), (75, 24.6), (76, 23.7), (77, 22.9),
   (78, 22.0), (79, 21.1), (80, 20.2), (81, 19.4), (82, 18.5), (83, 17.7),
   (84, 16.8), (85, 16.0), (86, 15.2), (87, 14.4), (88, 13.7), (89, 12.9),
   (90, 12.2), (91, 11.5), (92, 10.8), (93, 10.1), (94, 9.5), (95, 8.9),
   (96, 8.4), (97, 7.8), (98, 7.3), (99, 6.8), (100, 6.4), (101, 6.0),
   (102, 5.6), (103, 5.2), (104, 4.9), (105, 4.6), (106, 4.3), (107, 4.1),
   (108, 3.9), (109, 3.7), (110, 3.5), (111, 3.4), (112, 3.3), (113, 3.1),
   (114, 3.0), (115, 2.9), (116, 2.8), (117, 2.7), (118, 2.5), (119, 2.3),
   (120, 2.0)]

/-- RMD starting age (SECURE 2.0 Act), from rmd.py. -/
def RMD_START_AGE : ℕ := 73

/-- Distribution period: `UNIFORM_LIFETIME_TABLE.get(age, UNIFORM_LIFETIME_TABLE[120])`.
The table holds `(120, 2.0)`, so the innermost default is never used. -/
def distribution_period (age : ℕ) : ℚ :=
  dict_get UNIFORM_LIFETIME_TABLE age (dict_get UNIFORM_LIFETIME_TABLE 120 2)

/-- `calculate_rmd` from rmd.py. -/
def calculate_rmd (account_balance : ℚ) (age : ℕ) : ℚ :=
  if age < RMD_START_AGE then 0
  else if account_balance ≤ 0 then 0
  else account_balance / distribution_period age

lemma dict_get_pos {l : List (ℕ × ℚ)} {k : ℕ} {d : ℚ}
    (hl : ∀ p ∈ l, 0 < p.2) (hd : 0 < d) : 0 < dict_get l k d := by
  induction l with
  | nil => simpa [dict_get] using hd
  | cons p rest ih =>
      obtain ⟨a, v⟩ := p
      by_cases h : k = a
      · simpa [dict_get, h] using hl (a, v) (List.mem_cons_self _ _)
      · simpa [dict_get, h] using ih (fun q hq => hl q (List.mem_cons_of_mem _ hq))

lemma uniform_table_pos : ∀ p ∈ UNIFORM_LIFETIME_TABLE, 0 < p.2 := by
  simp only [UNIFORM_LIFETIME_TABLE, List.forall_mem_cons, List.forall_mem_nil]
  norm_num

lemma distribution_period_pos (age : ℕ) : 0 < distribution_period age := by
  unfold distribution_period
  exact dict_get_pos uniform_table_pos (dict_get_pos uniform_table_pos (by norm_num))

lemma calculate_rmd_nonneg (b : ℚ) (age : ℕ) : 0 ≤ calculate_rmd b age := by
  unfold calculate_rmd
  split
  · exact le_refl 0
  · split
    · exact le_refl 0
    · exact div_nonneg (le_of_not_le (by assumption)) (distribution_period_pos age).le

/-- Ages strictly beyond the table fall back to the final entry 2.0. -/
lemma distribution_period_beyond (age : ℕ) (h : 120 < age) : distribution_period age = 2 := by
  unfold distribution_period
  have : ∀ p ∈ UNIFORM_LIFETIME_TABLE, p.1 ≤ 120 := by
    simp only [UNIFORM_LIFETIME_TABLE, List.forall_mem_cons, List.forall_mem_nil]
    norm_num
  have hk : dict_get UNIFORM_LIFETIME_TABLE 120 2 = 2 := by
    norm_num [UNIFORM_LIFETIME_TABLE, dict_get]
  rw [hk]
  generalize hT : UNIFORM_LIFETIME_TABLE = l at this
  clear hT hk
  induction l with
  | nil => rfl
  | cons p rest ih =>
      obtain ⟨a, v⟩ := p
      have ha : a ≤ 120 := this (a, v) (List.mem_cons_self _ _)
      have hne : age ≠ a := by omega
      simpa [dict_get, hne] using ih (fun q hq => this q (List.mem_cons_of_mem _ hq))

/-- C3: `calculate_rmd(balance, age)` returns 0 when `age < 73` or `balance ≤ 0`;
otherwise it returns `balance / distribution_period(age)` where the period comes
from the fixed lookup table (26.5 at age 73), and ages beyond the table's last
entry (120) use the final entry 2.0. -/
theorem rmd_zero_cases_and_table (balance : ℚ) (age : ℕ) :
    ((age < 73 ∨ balance ≤ 0) → calculate_rmd balance age = 0) ∧
    (73 ≤ age → 0 < balance →
      calculate_rmd balance age = balance / distribution_period age) ∧
    (120 < age → distribution_period age = 2) ∧
    distribution_period 73 = 26.5 ∧
    distribution_period 120 = 2 := by
  refine ⟨?_, ?_, distribution_period_beyond age,
    by norm_num [distribution_period, UNIFORM_LIFETIME_TABLE, dict_get],
    by norm_num [distribution_period, UNIFORM_LIFETIME_TABLE, dict_get]⟩
  · rintro (h | h)
    · simp [calculate_rmd, RMD_START_AGE, h]
    · unfold calculate_rmd
      split
      · rfl
      · simp [h]
  · intro h1 h2
    unfold calculate_rmd
    rw [if_neg (by simp [RMD_START_AGE]; omega), if_neg (not_le.mpr h2)]

/-- Witness for C3 at concrete inputs. -/
theorem rmd_zero_cases_and_table_witness :
    calculate_rmd 500000 72 = 0 ∧ calculate_rmd (-5) 80 = 0 ∧
    calculate_rmd 500000 73 = 500000 / distribution_period 73 ∧
    distribution_period 121 = 2 :=
  ⟨(rmd_zero_cases_and_table 500000 72).1 (Or.inl (by decide)),
   (rmd_zero_cases_and_table (-5) 80).1 (Or.inr (by simp)),
   (rmd_zero_cases_and_table 500000 73).2.1 (by decide) (by simp),
   (rmd_zero_cases_and_table 0 121).2.2.1 (by decide)⟩

/- ===================== holdings.py ===================== -/

/-- Account types from models.py / holdings.py. -/
inductive AccountType : Type
  | traditional_401k
  | traditional_ira
  | roth_401k
  | roth_ira
  | taxable
  deriving DecidableEq, Repr

/-- Account-type categories from holdings.py. -/
def TRADITIONAL_ACCOUNTS : List AccountType := [.traditional_401k, .traditional_ira]

def ROTH_ACCOUNTS : List AccountType := [.roth_401k, .roth_ira]

def TAXABLE_ACCOUNTS : List AccountType := [.taxable]

/-- Withdrawal order for each strategy, from holdings.py. -/
def WITHDRAWAL_ORDER : List (String × List (List AccountType)) :=
  [("taxable_first", [TAXABLE_ACCOUNTS, TRADITIONAL_ACCOUNTS, ROTH_ACCOUNTS]),
   ("traditional_first", [TRADITIONAL_ACCOUNTS, TAXABLE_ACCOUNTS, ROTH_ACCOUNTS]),
   ("roth_first", [ROTH_ACCOUNTS, TAXABLE_ACCOUNTS, TRADITIONAL_ACCOUNTS])]

/-- State of a single holding (per simulation path); the pre-generated return
matrices are irrelevant to `withdraw` and are not carried here. -/
structure HoldingState where
  account_type : AccountType
  fund : String
  balance : ℚ
  deriving DecidableEq, Repr

/-- `HoldingsTracker.get_balance_by_account_category`, as a function of the
holdings list (the numpy per-simulation axis is modelled pointwise). -/
def get_balance_by_account_category (hs : List HoldingState) (category : List AccountType) : ℚ :=
  ((hs.filter (fun h => h.account_type ∈ category)).map HoldingState.balance).sum

/-- `HoldingsTracker.total_balance`. -/
def total_balance (hs : List HoldingState) : ℚ :=
  (hs.map HoldingState.balance).sum

/-- `HoldingsTracker.traditional_balance`. -/
def traditional_balance (hs : List HoldingState) : ℚ :=
  get_balance_by_account_category hs TRADITIONAL_ACCOUNTS

/-- `HoldingsTracker.roth_balance`. -/
def roth_balance (hs : List HoldingState) : ℚ :=
  get_balance_by_account_category hs ROTH_ACCOUNTS

/-- `HoldingsTracker.taxable_balance`. -/
def taxable_balance (hs : List HoldingState) : ℚ :=
  get_balance_by_account_category hs TAXABLE_ACCOUNTS

/-- `HoldingsTracker.calculate_rmd` (method): zero below age 73, otherwise the
pure `calculate_rmd` applied to the traditional balance. -/
def tracker_calculate_rmd (hs : List HoldingState) (age : ℕ) : ℚ :=
  if 73 ≤ age then calculate_rmd (traditional_balance hs) age else 0

/-- The per-holding update inside `HoldingsTracker._withdraw_from_category`:
withdraw pro-rata by the holding's share of the category total, guarding
division by zero, then clamp at 0. -/
def holding_withdraw_update (cat_total amount : ℚ) (category : List AccountType)
    (h : HoldingState) : HoldingState :=
  if h.account_type ∈ category then
    { h with balance := (max 0 (h.balance -
        amount * (if 0 < cat_total then h.balance / cat_total else 0))) }
  else h

/-- `HoldingsTracker._withdraw_from_category`. -/
def withdraw_from_category (hs : List HoldingState) (category : List AccountType)
    (amount : ℚ) : List HoldingState :=
  hs.map (holding_withdraw_update (get_balance_by_account_category hs category) amount category)

/-- Step 1 of `HoldingsTracker.withdraw`: the RMD actually taken,
`min(rmd, traditional_balance)`. -/
def mandatory_rmd_withdrawal (hs : List HoldingState) (age : ℕ) : ℚ :=
  min (tracker_calculate_rmd hs age) (traditional_balance hs)

/-- Step 1 of `HoldingsTracker.withdraw`: holdings after the forced RMD and the
remaining need `max(0, amount - rmd_withdrawal)` handed to step 2. -/
def mandatory_phase (hs : List HoldingState) (amount : ℚ) (age : ℕ) :
    List HoldingState × ℚ :=
  (withdraw_from_category hs TRADITIONAL_ACCOUNTS (mandatory_rmd_withdrawal hs age),
   max 0 (amount - mandatory_rmd_withdrawal hs age))

/-- Per-category discretionary withdrawal totals accumulated by the loops in
`HoldingsTracker.withdraw` (the `traditional`, `roth` and `taxable` keys). -/
structure CatAmounts where
  traditional : ℚ
  roth : ℚ
  taxable : ℚ
  deriving DecidableEq, Repr

/-- Add a withdrawal to the result key chosen by the category comparisons in
`HoldingsTracker.withdraw`. -/
def add_category_amount (r : CatAmounts) (category : List AccountType) (w : ℚ) : CatAmounts :=
  if category = TAXABLE_ACCOUNTS then { r with taxable := r.taxable + w }
  else if category = TRADITIONAL_ACCOUNTS then { r with traditional := r.traditional + w }
  else { r with roth := r.roth + w }

/-- The sequential (ordered-strategy) loop of `HoldingsTracker.withdraw`:
per category, withdraw `min(remaining, cat_balance)` and cascade. -/
def sequential_withdraw :
    List (List AccountType) → List HoldingState × ℚ × CatAmounts →
      List HoldingState × ℚ × CatAmounts
  | [], s => s
  | category :: rest, (hs, remaining, r) =>
      let cat_balance := get_balance_by_account_category hs category
      let w := min remaining cat_balance
      sequential_withdraw rest
        (withdraw_from_category hs category w,
         max 0 (remaining - w),
         add_category_amount r category w)

/-- The pro-rata loop of `HoldingsTracker.withdraw`: per category, withdraw
`min(remaining * cat_balance / total_bal, cat_balance)` where `total_bal` is
fixed before the loop, updating `remaining` after each category. -/
def pro_rata_withdraw (total_bal : ℚ) :
    List (List AccountType) → List HoldingState × ℚ × CatAmounts →
      List HoldingState × ℚ × CatAmounts
  | [], s => s
  | category :: rest, (hs, remaining, r) =>
      let cat_balance := get_balance_by_account_category hs category
      let proportion := if 0 < total_bal then cat_balance / total_bal else 0
      let w := min (remaining * proportion) cat_balance
      pro_rata_withdraw total_bal rest
        (withdraw_from_category hs category w,
         max 0 (remaining - w),
         add_category_amount r category w)

/-- Category order used by the pro-rata branch of `HoldingsTracker.withdraw`. -/
def PRO_RATA_CATEGORIES : List (List AccountType) :=
  [TAXABLE_ACCOUNTS, TRADITIONAL_ACCOUNTS, ROTH_ACCOUNTS]

/-- The holdings tracker: holdings plus the configured withdrawal strategy. -/
structure HoldingsTracker where
  holdings : List HoldingState
  withdrawal_strategy : String
  deriving DecidableEq, Repr

/-- The dictionary returned by `HoldingsTracker.withdraw`. -/
structure WithdrawResult where
  traditional_rmd : ℚ
  traditional : ℚ
  roth : ℚ
  taxable : ℚ
  total : ℚ
  deriving DecidableEq, Repr

/-- `HoldingsTracker.withdraw`: forced RMD first, then the discretionary phase
chosen by the strategy string (unknown strategies fall back to the
`taxable_first` order via `WITHDRAWAL_ORDER.get`); `total = amount - remaining`. -/
def HoldingsTracker.withdraw (t : HoldingsTracker) (amount : ℚ) (age : ℕ) :
    WithdrawResult × HoldingsTracker :=
  let rmd_withdrawal := mandatory_rmd_withdrawal t.holdings age
  let p := mandatory_phase t.holdings amount age
  let s :=
    if t.withdrawal_strategy = "pro_rata" then
      pro_rata_withdraw (total_balance p.1) PRO_RATA_CATEGORIES (p.1, p.2, ⟨0, 0, 0⟩)
    else
      sequential_withdraw
        (dict_get WITHDRAWAL_ORDER t.withdrawal_strategy
          (dict_get WITHDRAWAL_ORDER ("taxable_first") []))
        (p.1, p.2, ⟨0, 0, 0⟩)
  (⟨rmd_withdrawal, s.2.2.traditional, s.2.2.roth, s.2.2.taxable, amount - s.2.1⟩,
   ⟨s.1, t.withdrawal_strategy⟩)

/- ---------- lemmas about balances and the category withdrawal ---------- -/

lemma catsum_nil (category : List AccountType) :
    get_balance_by_account_category [] category = 0 := rfl

lemma catsum_cons (h : HoldingState) (rest : List HoldingState) (category : List AccountType) :
    get_balance_by_account_category (h :: rest) category
      = (if h.account_type ∈ category then h.balance else 0)
        + get_balance_by_account_category rest category := by
  unfold get_balance_by_account_category
  by_cases hmem : h.account_type ∈ category <;> simp [List.filter_cons, hmem]

lemma total_nil : total_balance [] = 0 := rfl

lemma total_cons (h : HoldingState) (rest : List HoldingState) :
    total_balance (h :: rest) = h.balance + total_balance rest := by
  simp [total_balance]

lemma get_balance_nonneg (hs : List HoldingState) (category : List AccountType)
    (hb : ∀ h ∈ hs, 0 ≤ h.balance) :
    0 ≤ get_balance_by_account_category hs category := by
  induction hs with
  | nil => simp [catsum_nil]
  | cons h rest ih =>
      have h0 := hb h (List.mem_cons_self _ _)
      have ih' := ih (fun x hx => hb x (List.mem_cons_of_mem _ hx))
      rw [catsum_cons]
      by_cases hmem : h.account_type ∈ category
      · rw [if_pos hmem]; linarith
      · rw [if_neg hmem]; linarith

lemma total_balance_nonneg (hs : List HoldingState) (hb : ∀ h ∈ hs, 0 ≤ h.balance) :
    0 ≤ total_balance hs := by
  induction hs with
  | nil => simp [total_nil]
  | cons h rest ih =>
      have h0 := hb h (List.mem_cons_self _ _)
      have ih' := ih (fun x hx => hb x (List.mem_cons_of_mem _ hx))
      rw [total_cons]; linarith

lemma catsum_le_total (hs : List HoldingState) (category : List AccountType)
    (hb : ∀ h ∈ hs, 0 ≤ h.balance) :
    get_balance_by_account_category hs category ≤ total_balance hs := by
  induction hs with
  | nil => simp [catsum_nil, total_nil]
  | cons h rest ih =>
      have h0 := hb h (List.mem_cons_self _ _)
      have ih' := ih (fun x hx => hb x (List.mem_cons_of_mem _ hx))
      rw [catsum_cons, total_cons]
      by_cases hmem : h.account_type ∈ category
      · rw [if_pos hmem]; linarith
      · rw [if_neg hmem]; linarith

lemma update_preserves_account_type (ct a : ℚ) (category : List AccountType) (h : HoldingState) :
    (holding_withdraw_update ct a category h).account_type = h.account_type := by
  unfold holding_withdraw_update; split <;> rfl

lemma update_balance_mem (ct a : ℚ) (category : List AccountType) (h : HoldingState)
    (hmem : h.account_type ∈ category) :
    (holding_withdraw_update ct a category h).balance
      = max 0 (h.balance - a * (if 0 < ct then h.balance / ct else 0)) := by
  unfold holding_withdraw_update; rw [if_pos hmem]

lemma update_not_mem (ct a : ℚ) (category : List AccountType) (h : HoldingState)
    (hmem : h.account_type ∉ category) :
    holding_withdraw_update ct a category h = h := by
  unfold holding_withdraw_update; rw [if_neg hmem]

lemma update_balance_collapse (ct a : ℚ) (category : List AccountType) (h : HoldingState)
    (hb : 0 ≤ h.balance) (hct : 0 < ct) (ha0 : 0 ≤ a) (hale : a ≤ ct)
    (hmem : h.account_type ∈ category) :
    (holding_withdraw_update ct a category h).balance = h.balance - (a / ct) * h.balance := by
  rw [update_balance_mem _ _ _ _ hmem, if_pos hct]
  have hmul : a * (h.balance / ct) = (a / ct) * h.balance := by ring
  rw [hmul]
  refine max_eq_right ?_
  have hcoef : a / ct ≤ 1 := (div_le_one hct).mpr hale
  nlinarith

lemma update_zero (ct : ℚ) (category : List AccountType) (h : HoldingState)
    (hb : 0 ≤ h.balance) :
    holding_withdraw_update ct 0 category h = h := by
  unfold holding_withdraw_update
  split
  · obtain ⟨t, f, b⟩ := h
    simp only [zero_mul, sub_zero] at *
    simp [max_eq_right hb]
  · rfl

lemma update_zero_map (hs : List HoldingState) (ct : ℚ) (category : List AccountType)
    (hb : ∀ h ∈ hs, 0 ≤ h.balance) :
    hs.map (holding_withdraw_update ct 0 category) = hs := by
  induction hs with
  | nil => rfl
  | cons h rest ih =>
      rw [List.map_cons, update_zero ct category h (hb h (List.mem_cons_self _ _)),
        ih (fun x hx => hb x (List.mem_cons_of_mem _ hx))]

lemma update_cat_sum (hs : List HoldingState) (category : List AccountType) (ct a : ℚ)
    (hb : ∀ h ∈ hs, 0 ≤ h.balance) (hct : 0 < ct) (ha0 : 0 ≤ a) (hale : a ≤ ct) :
    get_balance_by_account_category (hs.map (holding_withdraw_update ct a category)) category
      = get_balance_by_account_category hs category
        - (a / ct) * get_balance_by_account_category hs category ∧
    total_balance (hs.map (holding_withdraw_update ct a category))
      = total_balance hs - (a / ct) * get_balance_by_account_category hs category := by
  induction hs with
  | nil => simp [catsum_nil, total_nil]
  | cons h rest ih =>
      have h0 := hb h (List.mem_cons_self _ _)
      obtain ⟨ih1, ih2⟩ := ih (fun x hx => hb x (List.mem_cons_of_mem _ hx))
      rw [List.map_cons, catsum_cons, catsum_cons, total_cons, total_cons,
        update_preserves_account_type]
      by_cases hmem : h.account_type ∈ category
      · rw [if_pos hmem, if_pos hmem, ih1, ih2,
          update_balance_collapse ct a category h h0 hct ha0 hale hmem]
        constructor <;> ring
      · rw [if_neg hmem, if_neg hmem, ih1, ih2, update_not_mem ct a category h hmem]
        constructor <;> ring

lemma wfc_cat_balance (hs : List HoldingState) (category : List AccountType) (a : ℚ)
    (hb : ∀ h ∈ hs, 0 ≤ h.balance) (ha0 : 0 ≤ a)
    (hale : a ≤ get_balance_by_account_category hs category) :
    get_balance_by_account_category (withdraw_from_category hs category a) category
      = get_balance_by_account_category hs category - a := by
  unfold withdraw_from_category
  rcases lt_or_le 0 (get_balance_by_account_category hs category) with hct | hct
  · rw [(update_cat_sum hs category _ a hb hct ha0 hale).1]
    field_simp
  · have hge := get_balance_nonneg hs category hb
    have hct0 : get_balance_by_account_category hs category = 0 := le_antisymm hct hge
    have ha : a = 0 := le_antisymm (hct0 ▸ hale) ha0
    subst ha
    rw [update_zero_map hs _ category hb, hct0, sub_zero]

lemma wfc_total (hs : List HoldingState) (category : List AccountType) (a : ℚ)
    (hb : ∀ h ∈ hs, 0 ≤ h.balance) (ha0 : 0 ≤ a)
    (hale : a ≤ get_balance_by_account_category hs category) :
    total_balance (withdraw_from_category hs category a) = total_balance hs - a := by
  unfold withdraw_from_category
  rcases lt_or_le 0 (get_balance_by_account_category hs category) with hct | hct
  · rw [(update_cat_sum hs category _ a hb hct ha0 hale).2]
    field_simp
  · have hge := get_balance_nonneg hs category hb
    have hct0 : get_balance_by_account_category hs category = 0 := le_antisymm hct hge
    have ha : a = 0 := le_antisymm (hct0 ▸ hale) ha0
    subst ha
    rw [update_zero_map hs _ category hb, sub_zero]

lemma wfc_other_category (hs : List HoldingState) (cat1 cat2 : List AccountType) (a : ℚ)
    (hdisj : ∀ x ∈ cat1, x ∉ cat2) :
    get_balance_by_account_category (withdraw_from_category hs cat2 a) cat1
      = get_balance_by_account_category hs cat1 := by
  unfold withdraw_from_category
  generalize get_balance_by_account_category hs cat2 = ct
  induction hs with
  | nil => rfl
  | cons h rest ih =>
      rw [List.map_cons, catsum_cons, catsum_cons, update_preserves_account_type, ih]
      by_cases hmem : h.account_type ∈ cat1
      · rw [if_pos hmem, if_pos hmem, update_not_mem ct a cat2 h (hdisj _ hmem)]
      · rw [if_neg hmem, if_neg hmem]

lemma wfc_nonneg (hs : List HoldingState) (category : List AccountType) (a : ℚ)
    (hb : ∀ h ∈ hs, 0 ≤ h.balance) :
    ∀ h' ∈ withdraw_from_category hs category a, 0 ≤ h'.balance := by
  unfold withdraw_from_category
  intro h' hh'
  simp only [List.mem_map] at hh'
  obtain ⟨h, hh, rfl⟩ := hh'
  unfold holding_withdraw_update
  split
  · simp
  · exact hb h hh

/- ---------- category disjointness ---------- -/

lemma trad_not_taxable : ∀ x ∈ TRADITIONAL_ACCOUNTS, x ∉ TAXABLE_ACCOUNTS := by decide

lemma trad_not_roth : ∀ x ∈ TRADITIONAL_ACCOUNTS, x ∉ ROTH_ACCOUNTS := by decide

lemma roth_not_taxable : ∀ x ∈ ROTH_ACCOUNTS, x ∉ TAXABLE_ACCOUNTS := by decide

lemma roth_not_trad : ∀ x ∈ ROTH_ACCOUNTS, x ∉ TRADITIONAL_ACCOUNTS := by decide

lemma taxable_not_trad : ∀ x ∈ TAXABLE_ACCOUNTS, x ∉ TRADITIONAL_ACCOUNTS := by decide

lemma taxable_not_roth : ∀ x ∈ TAXABLE_ACCOUNTS, x ∉ ROTH_ACCOUNTS := by decide

/- ---------- mandatory (RMD) phase ---------- -/

/-- The tracker method equals the pure `calculate_rmd` on the traditional
balance (below 73 both are zero). -/
lemma tracker_rmd_eq (hs : List HoldingState) (age : ℕ) :
    tracker_calculate_rmd hs age = calculate_rmd (traditional_balance hs) age := by
  unfold tracker_calculate_rmd calculate_rmd RMD_START_AGE
  by_cases h : 73 ≤ age
  · rw [if_pos h]
  · rw [if_neg h, if_pos (by omega)]

lemma mandatory_rmd_nonneg (hs : List HoldingState) (age : ℕ)
    (hb : ∀ h ∈ hs, 0 ≤ h.balance) :
    0 ≤ mandatory_rmd_withdrawal hs age := by
  unfold mandatory_rmd_withdrawal
  refine le_min ?_ ?_
  · rw [tracker_rmd_eq]; exact calculate_rmd_nonneg _ _
  · exact get_balance_nonneg hs _ hb

lemma mandatory_rmd_le_trad (hs : List HoldingState) (age : ℕ) :
    mandatory_rmd_withdrawal hs age ≤ traditional_balance hs :=
  min_le_right _ _

lemma mandatory_phase_nonneg (hs : List HoldingState) (amount : ℚ) (age : ℕ)
    (hb : ∀ h ∈ hs, 0 ≤ h.balance) :
    ∀ h' ∈ (mandatory_phase hs amount age).1, 0 ≤ h'.balance :=
  wfc_nonneg hs _ _ hb

lemma mandatory_phase_trad (hs : List HoldingState) (amount : ℚ) (age : ℕ)
    (hb : ∀ h ∈ hs, 0 ≤ h.balance) :
    traditional_balance (mandatory_phase hs amount age).1
      = traditional_balance hs - mandatory_rmd_withdrawal hs age := by
  unfold mandatory_phase traditional_balance
  exact wfc_cat_balance hs _ _ hb (mandatory_rmd_nonneg hs age hb)
    (mandatory_rmd_le_trad hs age)

lemma mandatory_phase_total (hs : List HoldingState) (amount : ℚ) (age : ℕ)
    (hb : ∀ h ∈ hs, 0 ≤ h.balance) :
    total_balance (mandatory_phase hs amount age).1
      = total_balance hs - mandatory_rmd_withdrawal hs age := by
  unfold mandatory_phase
  exact wfc_total hs _ _ hb (mandatory_rmd_nonneg hs age hb)
    (mandatory_rmd_le_trad hs age)

/-- C2: `withdraw` always runs the mandatory phase first: the reported
`traditional_rmd` is `min(rmd(traditional_balance, age), traditional_balance)`
no matter how small `amount` is, exactly that amount leaves the traditional
category, and the discretionary phase receives `max(0, amount - rmd_taken)`. -/
theorem withdraw_mandatory_rmd_phase (t : HoldingsTracker) (amount : ℚ) (age : ℕ)
    (hb : ∀ h ∈ t.holdings, 0 ≤ h.balance) :
    (t.withdraw amount age).1.traditional_rmd
        = min (calculate_rmd (traditional_balance t.holdings) age)
            (traditional_balance t.holdings) ∧
    traditional_balance (mandatory_phase t.holdings amount age).1
        = traditional_balance t.holdings - (t.withdraw amount age).1.traditional_rmd ∧
    (mandatory_phase t.holdings amount age).2
        = max 0 (amount - (t.withdraw amount age).1.traditional_rmd) := by
  have hfield : (t.withdraw amount age).1.traditional_rmd
      = mandatory_rmd_withdrawal t.holdings age := by
    unfold HoldingsTracker.withdraw
    split <;> rfl
  refine ⟨?_, ?_, ?_⟩
  · rw [hfield]; unfold mandatory_rmd_withdrawal; rw [tracker_rmd_eq]
  · rw [hfield]; exact mandatory_phase_trad t.holdings amount age hb
  · rw [hfield]; rfl

/-- Witness tracker for C2: traditional 530 and taxable 100 at age 73. -/
def c2_tracker : HoldingsTracker :=
  ⟨[⟨AccountType.traditional_401k, "vt", 530⟩, ⟨AccountType.taxable, "vt", 100⟩],
   "taxable_first"⟩

/-- Witness for C2: a withdrawal request of 5 at age 73 still triggers the RMD. -/
theorem withdraw_mandatory_rmd_phase_witness :
    (c2_tracker.withdraw 5 73).1.traditional_rmd
        = min (calculate_rmd (traditional_balance c2_tracker.holdings) 73)
            (traditional_balance c2_tracker.holdings) ∧
    traditional_balance (mandatory_phase c2_tracker.holdings 5 73).1
        = traditional_balance c2_tracker.holdings
          - (c2_tracker.withdraw 5 73).1.traditional_rmd ∧
    (mandatory_phase c2_tracker.holdings 5 73).2
        = max 0 (5 - (c2_tracker.withdraw 5 73).1.traditional_rmd) :=
  withdraw_mandatory_rmd_phase c2_tracker 5 73 (by
    simp only [c2_tracker, List.forall_mem_cons, List.forall_mem_nil]
    norm_num)

/- ---------- discretionary phase invariants ---------- -/

/-- Sum of the three discretionary keys of the result dictionary. -/
def cat_sum (r : CatAmounts) : ℚ := r.traditional + r.roth + r.taxable

lemma add_category_amount_sum (r : CatAmounts) (category : List AccountType) (w : ℚ) :
    cat_sum (add_category_amount r category w) = cat_sum r + w := by
  unfold add_category_amount cat_sum
  split_ifs <;> simp <;> ring

lemma sequential_invariant (cats : List (List AccountType)) (hs : List HoldingState)
    (R : ℚ) (r : CatAmounts) (hb : ∀ h ∈ hs, 0 ≤ h.balance) (hR : 0 ≤ R) :
    0 ≤ (sequential_withdraw cats (hs, R, r)).2.1 ∧
    (∀ h ∈ (sequential_withdraw cats (hs, R, r)).1, 0 ≤ h.balance) ∧
    total_balance hs - total_balance (sequential_withdraw cats (hs, R, r)).1
      = R - (sequential_withdraw cats (hs, R, r)).2.1 ∧
    cat_sum (sequential_withdraw cats (hs, R, r)).2.2 - cat_sum r
      = R - (sequential_withdraw cats (hs, R, r)).2.1 := by
  induction cats generalizing hs R r with
  | nil => exact ⟨hR, hb, by simp [sequential_withdraw], by simp [sequential_withdraw]⟩
  | cons category rest ih =>
      have hcb0 : 0 ≤ get_balance_by_account_category hs category :=
        get_balance_nonneg hs category hb
      have hw0 : 0 ≤ min R (get_balance_by_account_category hs category) := le_min hR hcb0
      have hwR : min R (get_balance_by_account_category hs category) ≤ R := min_le_left _ _
      have hwcb : min R (get_balance_by_account_category hs category)
          ≤ get_balance_by_account_category hs category := min_le_right _ _
      have hmax : max 0 (R - min R (get_balance_by_account_category hs category))
          = R - min R (get_balance_by_account_category hs category) :=
        max_eq_right (by linarith)
      have hb' := wfc_nonneg hs category
        (min R (get_balance_by_account_category hs category)) hb
      have htot := wfc_total hs category
        (min R (get_balance_by_account_category hs category)) hb hw0 hwcb
      obtain ⟨i1, i2, i3, i4⟩ := ih (withdraw_from_category hs category
          (min R (get_balance_by_account_category hs category)))
        (max 0 (R - min R (get_balance_by_account_category hs category)))
        (add_category_amount r category
          (min R (get_balance_by_account_category hs category)))
        hb' (le_max_left _ _)
      rw [hmax] at i1 i2 i3 i4
      rw [add_category_amount_sum] at i4
      simp only [sequential_withdraw, hmax]
      exact ⟨i1, i2, by linarith, by linarith⟩

lemma pro_rata_invariant (T : ℚ) (cats : List (List AccountType)) (hs : List HoldingState)
    (R : ℚ) (r : CatAmounts) (hb : ∀ h ∈ hs, 0 ≤ h.balance) (hR : 0 ≤ R)
    (hT : total_balance hs ≤ T) :
    0 ≤ (pro_rata_withdraw T cats (hs, R, r)).2.1 ∧
    (∀ h ∈ (pro_rata_withdraw T cats (hs, R, r)).1, 0 ≤ h.balance) ∧
    total_balance hs - total_balance (pro_rata_withdraw T cats (hs, R, r)).1
      = R - (pro_rata_withdraw T cats (hs, R, r)).2.1 ∧
    cat_sum (pro_rata_withdraw T cats (hs, R, r)).2.2 - cat_sum r
      = R - (pro_rata_withdraw T cats (hs, R, r)).2.1 := by
  induction cats generalizing hs R r with
  | nil => exact ⟨hR, hb, by simp [pro_rata_withdraw], by simp [pro_rata_withdraw]⟩
  | cons category rest ih =>
      have hcb0 : 0 ≤ get_balance_by_account_category hs category :=
        get_balance_nonneg hs category hb
      have hprop0 : 0 ≤ (if 0 < T then get_balance_by_account_category hs category / T else 0) := by
        split
        · exact div_nonneg hcb0 (by linarith)
        · exact le_refl 0
      have hprop1 : (if 0 < T then get_balance_by_account_category hs category / T else 0) ≤ 1 := by
        split
        · rename_i hTpos
          refine (div_le_one hTpos).mpr ?_
          exact le_trans (catsum_le_total hs category hb) hT
        · norm_num
      have hw0 : 0 ≤ min (R * (if 0 < T then get_balance_by_account_category hs category / T else 0))
          (get_balance_by_account_category hs category) :=
        le_min (mul_nonneg hR hprop0) hcb0
      have hwR : min (R * (if 0 < T then get_balance_by_account_category hs category / T else 0))
          (get_balance_by_account_category hs category) ≤ R :=
        le_trans (min_le_left _ _) (by nlinarith)
      have hwcb : min (R * (if 0 < T then get_balance_by_account_category hs category / T else 0))
          (get_balance_by_account_category hs category)
          ≤ get_balance_by_account_category hs category := min_le_right _ _
      have hmax : max 0 (R - min (R * (if 0 < T then get_balance_by_account_category hs category / T else 0))
          (get_balance_by_account_category hs category))
          = R - min (R * (if 0 < T then get_balance_by_account_category hs category / T else 0))
            (get_balance_by_account_category hs category) :=
        max_eq_right (by linarith)
      have hb' := wfc_nonneg hs category
        (min (R * (if 0 < T then get_balance_by_account_category hs category / T else 0))
          (get_balance_by_account_category hs category)) hb
      have htot := wfc_total hs category
        (min (R * (if 0 < T then get_balance_by_account_category hs category / T else 0))
          (get_balance_by_account_category hs category)) hb hw0 hwcb
      have hT' : total_balance (withdraw_from_category hs category
          (min (R * (if 0 < T then get_balance_by_account_category hs category / T else 0))
            (get_balance_by_account_category hs category))) ≤ T := by
        rw [htot]; linarith
      obtain ⟨i1, i2, i3, i4⟩ := ih (withdraw_from_category hs category
          (min (R * (if 0 < T then get_balance_by_account_category hs category / T else 0))
            (get_balance_by_account_category hs category)))
        (max 0 (R - min (R * (if 0 < T then get_balance_by_account_category hs category / T else 0))
          (get_balance_by_account_category hs category)))
        (add_category_amount r category
          (min (R * (if 0 < T then get_balance_by_account_category hs category / T else 0))
            (get_balance_by_account_category hs category)))
        hb' (le_max_left _ _) hT'
      rw [hmax] at i1 i2 i3 i4
      rw [add_category_amount_sum] at i4
      simp only [pro_rata_withdraw, hmax]
      exact ⟨i1, i2, by linarith, by linarith⟩

/-- C5 (amended): whenever the forced RMD does not exceed the requested amount,
the returned `total` equals the sum of the per-category amounts and equals the
actual decrease of the portfolio balance.  (When the RMD exceeds the request,
`total = amount - remaining` understates the extraction; see the
counterexample.) -/
theorem withdraw_total_matches_extraction (t : HoldingsTracker) (amount : ℚ) (age : ℕ)
    (hb : ∀ h ∈ t.holdings, 0 ≤ h.balance)
    (hr : mandatory_rmd_withdrawal t.holdings age ≤ amount) :
    (t.withdraw amount age).1.total
      = (t.withdraw amount age).1.traditional_rmd + (t.withdraw amount age).1.traditional
        + (t.withdraw amount age).1.roth + (t.withdraw amount age).1.taxable ∧
    total_balance t.holdings - total_balance (t.withdraw amount age).2.holdings
      = (t.withdraw amount age).1.total := by
  have hm0 : 0 ≤ mandatory_rmd_withdrawal t.holdings age :=
    mandatory_rmd_nonneg t.holdings age hb
  have hb1 : ∀ h ∈ (mandatory_phase t.holdings amount age).1, 0 ≤ h.balance :=
    mandatory_phase_nonneg t.holdings amount age hb
  have htot1 : total_balance (mandatory_phase t.holdings amount age).1
      = total_balance t.holdings - mandatory_rmd_withdrawal t.holdings age :=
    mandatory_phase_total t.holdings amount age hb
  have hR1 : (mandatory_phase t.holdings amount age).2
      = amount - mandatory_rmd_withdrawal t.holdings age := by
    show max 0 (amount - mandatory_rmd_withdrawal t.holdings age) = _
    exact max_eq_right (by linarith)
  have hR1nn : 0 ≤ (mandatory_phase t.holdings amount age).2 := by rw [hR1]; linarith
  simp only [HoldingsTracker.withdraw]
  by_cases hstrat : t.withdrawal_strategy = "pro_rata"
  · rw [if_pos hstrat]
    obtain ⟨i1, i2, i3, i4⟩ := pro_rata_invariant
      (total_balance (mandatory_phase t.holdings amount age).1) PRO_RATA_CATEGORIES
      (mandatory_phase t.holdings amount age).1 (mandatory_phase t.holdings amount age).2
      ⟨0, 0, 0⟩ hb1 hR1nn (le_refl _)
    unfold cat_sum at i4
    simp only at i4
    constructor
    · linarith [i4]
    · linarith [i3, htot1, hR1]
  · rw [if_neg hstrat]
    obtain ⟨i1, i2, i3, i4⟩ := sequential_invariant
      (dict_get WITHDRAWAL_ORDER t.withdrawal_strategy
        (dict_get WITHDRAWAL_ORDER ("taxable_first") []))
      (mandatory_phase t.holdings amount age).1 (mandatory_phase t.holdings amount age).2
      ⟨0, 0, 0⟩ hb1 hR1nn
    unfold cat_sum at i4
    simp only at i4
    constructor
    · linarith [i4]
    · linarith [i3, htot1, hR1]

/-- Witness tracker for C5: taxable-only portfolio, no RMD due at age 60. -/
def c5_witness_tracker : HoldingsTracker := ⟨[⟨AccountType.taxable, "vt", 100⟩], "taxable_first"⟩

/-- Witness for C5 (amended) at a concrete input. -/
theorem withdraw_total_matches_extraction_witness :
    ((∀ h ∈ c5_witness_tracker.holdings, 0 ≤ h.balance) ∧
      mandatory_rmd_withdrawal c5_witness_tracker.holdings 60 ≤ 50) ∧
    ((c5_witness_tracker.withdraw 50 60).1.total
        = (c5_witness_tracker.withdraw 50 60).1.traditional_rmd
          + (c5_witness_tracker.withdraw 50 60).1.traditional
          + (c5_witness_tracker.withdraw 50 60).1.roth
          + (c5_witness_tracker.withdraw 50 60).1.taxable ∧
      total_balance c5_witness_tracker.holdings
          - total_balance ((c5_witness_tracker.withdraw 50 60).2.holdings)
        = (c5_witness_tracker.withdraw 50 60).1.total) :=
  ⟨⟨by simp [c5_witness_tracker],
    by simp [c5_witness_tracker, mandatory_rmd_withdrawal, tracker_calculate_rmd,
      traditional_balance, get_balance_by_account_category, TRADITIONAL_ACCOUNTS,
      List.filter_cons]⟩,
   withdraw_total_matches_extraction c5_witness_tracker 50 60
     (by simp [c5_witness_tracker])
     (by simp [c5_witness_tracker, mandatory_rmd_withdrawal, tracker_calculate_rmd,
        traditional_balance, get_balance_by_account_category, TRADITIONAL_ACCOUNTS,
        List.filter_cons])⟩

/-- Counterexample tracker for C5: only a traditional holding, so the forced RMD
at age 75 exceeds a small request. -/
def c5_tracker : HoldingsTracker := ⟨[⟨AccountType.traditional_401k, "vt", 1000⟩], "taxable_first"⟩

/-- C5 counterexample: requesting 10 at age 75 forces an RMD of 1000/24.6 = 5000/123
(≈ 40.65); the reported `total` is 10 while the per-category sum and the true
balance decrease are both 5000/123. -/
theorem withdraw_total_counterexample :
    (c5_tracker.withdraw 10 75).1.total = 10 ∧
    (c5_tracker.withdraw 10 75).1.traditional_rmd + (c5_tracker.withdraw 10 75).1.traditional
      + (c5_tracker.withdraw 10 75).1.roth + (c5_tracker.withdraw 10 75).1.taxable
      = 5000 / 123 ∧
    total_balance c5_tracker.holdings
      - total_balance ((c5_tracker.withdraw 10 75).2.holdings) = 5000 / 123 ∧
    (10 : ℚ) ≠ 5000 / 123 := by
  refine ⟨?_, ?_, ?_, by norm_num⟩ <;>
  · simp [c5_tracker, HoldingsTracker.withdraw, mandatory_phase, mandatory_rmd_withdrawal,
      tracker_calculate_rmd, calculate_rmd, RMD_START_AGE, distribution_period, dict_get,
      UNIFORM_LIFETIME_TABLE, traditional_balance, get_balance_by_account_category,
      total_balance, withdraw_from_category, holding_withdraw_update, sequential_withdraw,
      add_category_amount, WITHDRAWAL_ORDER, PRO_RATA_CATEGORIES, TRADITIONAL_ACCOUNTS,
      ROTH_ACCOUNTS, TAXABLE_ACCOUNTS, List.filter_cons]
    norm_num [min_def, max_def]

/- ---------- pro_rata discretionary phase (C4) ---------- -/

lemma cat_eq_tax_tax : (TAXABLE_ACCOUNTS = TAXABLE_ACCOUNTS) = True := by simp

lemma cat_eq_trad_tax : (TRADITIONAL_ACCOUNTS = TAXABLE_ACCOUNTS) = False := by
  simp [TRADITIONAL_ACCOUNTS, TAXABLE_ACCOUNTS]

lemma cat_eq_trad_trad : (TRADITIONAL_ACCOUNTS = TRADITIONAL_ACCOUNTS) = True := by simp

lemma cat_eq_roth_tax : (ROTH_ACCOUNTS = TAXABLE_ACCOUNTS) = False := by
  simp [ROTH_ACCOUNTS, TAXABLE_ACCOUNTS]

lemma cat_eq_roth_trad : (ROTH_ACCOUNTS = TRADITIONAL_ACCOUNTS) = False := by
  simp [ROTH_ACCOUNTS, TRADITIONAL_ACCOUNTS]

lemma cat_eq_tax_trad : (TAXABLE_ACCOUNTS = TRADITIONAL_ACCOUNTS) = False := by
  simp [TAXABLE_ACCOUNTS, TRADITIONAL_ACCOUNTS]

/-- C4 (amended): under `pro_rata` the three categories are processed in order
taxable, traditional, roth; each category's withdrawal is
`min(current_remaining * cat_balance / total, cat_balance)` with balances and
the total measured right after the RMD phase, but `current_remaining` is
reduced by the previous categories' withdrawals (it is NOT the single post-RMD
remaining need for all three categories, as the original claim stated). -/
theorem pro_rata_sequential_proportions (t : HoldingsTracker) (amount : ℚ) (age : ℕ)
    (hpr : t.withdrawal_strategy = "pro_rata") :
    (t.withdraw amount age).1.taxable
      = min ((mandatory_phase t.holdings amount age).2
          * (if 0 < total_balance (mandatory_phase t.holdings amount age).1
              then taxable_balance (mandatory_phase t.holdings amount age).1
                / total_balance (mandatory_phase t.holdings amount age).1 else 0))
          (taxable_balance (mandatory_phase t.holdings amount age).1) ∧
    (t.withdraw amount age).1.traditional
      = min ((max 0 ((mandatory_phase t.holdings amount age).2
            - (t.withdraw amount age).1.taxable))
          * (if 0 < total_balance (mandatory_phase t.holdings amount age).1
              then traditional_balance (mandatory_phase t.holdings amount age).1
                / total_balance (mandatory_phase t.holdings amount age).1 else 0))
          (traditional_balance (mandatory_phase t.holdings amount age).1) ∧
    (t.withdraw amount age).1.roth
      = min ((max 0 ((max 0 ((mandatory_phase t.holdings amount age).2
              - (t.withdraw amount age).1.taxable))
            - (t.withdraw amount age).1.traditional))
          * (if 0 < total_balance (mandatory_phase t.holdings amount age).1
              then roth_balance (mandatory_phase t.holdings amount age).1
                / total_balance (mandatory_phase t.holdings amount age).1 else 0))
          (roth_balance (mandatory_phase t.holdings amount age).1) := by
  have htrad1 : get_balance_by_account_category
      (withdraw_from_category (mandatory_phase t.holdings amount age).1 TAXABLE_ACCOUNTS
        (min ((mandatory_phase t.holdings amount age).2
          * (if 0 < total_balance (mandatory_phase t.holdings amount age).1
              then get_balance_by_account_category (mandatory_phase t.holdings amount age).1
                  TAXABLE_ACCOUNTS / total_balance (mandatory_phase t.holdings amount age).1
              else 0))
          (get_balance_by_account_category (mandatory_phase t.holdings amount age).1
            TAXABLE_ACCOUNTS)))
      TRADITIONAL_ACCOUNTS
      = get_balance_by_account_category (mandatory_phase t.holdings amount age).1
          TRADITIONAL_ACCOUNTS :=
    wfc_other_category _ _ _ _ trad_not_taxable
  simp only [HoldingsTracker.withdraw]
  rw [if_pos hpr]
  simp only [PRO_RATA_CATEGORIES, pro_rata_withdraw, add_category_amount,
    cat_eq_tax_tax, cat_eq_trad_tax, cat_eq_trad_trad, cat_eq_roth_tax, cat_eq_roth_trad,
    if_true, if_false, taxable_balance, traditional_balance, roth_balance]
  rw [htrad1]
  refine ⟨by ring, by ring, ?_⟩
  rw [wfc_other_category _ ROTH_ACCOUNTS TRADITIONAL_ACCOUNTS _ roth_not_trad,
    wfc_other_category _ ROTH_ACCOUNTS TAXABLE_ACCOUNTS _ roth_not_taxable]
  ring

/-- Counterexample tracker for C4: equal 100 balances in the three categories,
`pro_rata` strategy. -/
def c4_tracker : HoldingsTracker :=
  ⟨[⟨AccountType.taxable, "vt", 100⟩, ⟨AccountType.traditional_401k, "vt", 100⟩,
    ⟨AccountType.roth_ira, "vt", 100⟩], "pro_rata"⟩

/-- C4 counterexample: withdrawing 90 at age 60 (no RMD) under `pro_rata`
gives the traditional category 20, not the 30 the claim's formula
`min(remaining_after_rmd * fraction, balance)` predicts. -/
theorem pro_rata_counterexample :
    (c4_tracker.withdraw 90 60).1.traditional = 20 ∧
    min ((mandatory_phase c4_tracker.holdings 90 60).2
        * (if 0 < total_balance (mandatory_phase c4_tracker.holdings 90 60).1
            then traditional_balance (mandatory_phase c4_tracker.holdings 90 60).1
              / total_balance (mandatory_phase c4_tracker.holdings 90 60).1 else 0))
      (traditional_balance (mandatory_phase c4_tracker.holdings 90 60).1) = 30 ∧
    (20 : ℚ) ≠ 30 := by
  refine ⟨?_, ?_, by norm_num⟩ <;>
  · simp [c4_tracker, HoldingsTracker.withdraw, mandatory_phase, mandatory_rmd_withdrawal,
      tracker_calculate_rmd, calculate_rmd, RMD_START_AGE, distribution_period, dict_get,
      UNIFORM_LIFETIME_TABLE, traditional_balance, get_balance_by_account_category,
      total_balance, withdraw_from_category, holding_withdraw_update, sequential_withdraw,
      pro_rata_withdraw, add_category_amount, WITHDRAWAL_ORDER, PRO_RATA_CATEGORIES,
      TRADITIONAL_ACCOUNTS, ROTH_ACCOUNTS, TAXABLE_ACCOUNTS, List.filter_cons]
    norm_num [min_def, max_def]

/-- Witness tracker for C4 (amended): 300/100/100 split under `pro_rata`. -/
def c4_witness_tracker : HoldingsTracker :=
  ⟨[⟨AccountType.taxable, "vt", 300⟩, ⟨AccountType.traditional_ira, "bnd", 100⟩,
    ⟨AccountType.roth_401k, "sp500", 100⟩], "pro_rata"⟩

/-- Witness for C4 (amended) at a concrete input. -/
theorem pro_rata_sequential_proportions_witness :
    c4_witness_tracker.withdrawal_strategy = "pro_rata" ∧
    ((c4_witness_tracker.withdraw 50 65).1.taxable
      = min ((mandatory_phase c4_witness_tracker.holdings 50 65).2
          * (if 0 < total_balance (mandatory_phase c4_witness_tracker.holdings 50 65).1
              then taxable_balance (mandatory_phase c4_witness_tracker.holdings 50 65).1
                / total_balance (mandatory_phase c4_witness_tracker.holdings 50 65).1 else 0))
          (taxable_balance (mandatory_phase c4_witness_tracker.holdings 50 65).1) ∧
    (c4_witness_tracker.withdraw 50 65).1.traditional
      = min ((max 0 ((mandatory_phase c4_witness_tracker.holdings 50 65).2
            - (c4_witness_tracker.withdraw 50 65).1.taxable))
          * (if 0 < total_balance (mandatory_phase c4_witness_tracker.holdings 50 65).1
              then traditional_balance (mandatory_phase c4_witness_tracker.holdings 50 65).1
                / total_balance (mandatory_phase c4_witness_tracker.holdings 50 65).1 else 0))
          (traditional_balance (mandatory_phase c4_witness_tracker.holdings 50 65).1) ∧
    (c4_witness_tracker.withdraw 50 65).1.roth
      = min ((max 0 ((max 0 ((mandatory_phase c4_witness_tracker.holdings 50 65).2
              - (c4_witness_tracker.withdraw 50 65).1.taxable))
            - (c4_witness_tracker.withdraw 50 65).1.traditional))
          * (if 0 < total_balance (mandatory_phase c4_witness_tracker.holdings 50 65).1
              then roth_balance (mandatory_phase c4_witness_tracker.holdings 50 65).1
                / total_balance (mandatory_phase c4_witness_tracker.holdings 50 65).1 else 0))
          (roth_balance (mandatory_phase c4_witness_tracker.holdings 50 65).1)) :=
  ⟨rfl, pro_rata_sequential_proportions c4_witness_tracker 50 65 rfl⟩

/- ---------- ordered strategies (C6) ---------- -/

lemma wfc_zero (hs : List HoldingState) (category : List AccountType)
    (hb : ∀ h ∈ hs, 0 ≤ h.balance) :
    withdraw_from_category hs category 0 = hs := by
  unfold withdraw_from_category
  exact update_zero_map hs _ category hb

lemma order_lookup_taxable (d : List (List AccountType)) :
    dict_get WITHDRAWAL_ORDER ("taxable_first") d
      = [TAXABLE_ACCOUNTS, TRADITIONAL_ACCOUNTS, ROTH_ACCOUNTS] := by
  simp [WITHDRAWAL_ORDER, dict_get]

lemma order_lookup_traditional (d : List (List AccountType)) :
    dict_get WITHDRAWAL_ORDER ("traditional_first") d
      = [TRADITIONAL_ACCOUNTS, TAXABLE_ACCOUNTS, ROTH_ACCOUNTS] := by
  simp [WITHDRAWAL_ORDER, dict_get]

lemma order_lookup_roth (d : List (List AccountType)) :
    dict_get WITHDRAWAL_ORDER ("roth_first") d
      = [ROTH_ACCOUNTS, TAXABLE_ACCOUNTS, TRADITIONAL_ACCOUNTS] := by
  simp [WITHDRAWAL_ORDER, dict_get]

/-- C6: under an ordered strategy the discretionary phase drains the categories
in the strategy's priority order, each withdrawal being `min(remaining,
cat_balance)` with the leftover cascading; in particular, with no RMD due, a
`taxable_first` withdrawal of at most the taxable balance leaves traditional
and roth untouched and reduces taxable by exactly the requested amount. -/
theorem ordered_strategy_cascade (t : HoldingsTracker) (amount : ℚ) (age : ℕ) :
    (t.withdrawal_strategy = "taxable_first" →
      (t.withdraw amount age).1.taxable
          = min (mandatory_phase t.holdings amount age).2
              (taxable_balance (mandatory_phase t.holdings amount age).1) ∧
      (t.withdraw amount age).1.traditional
          = min (max 0 ((mandatory_phase t.holdings amount age).2
                - (t.withdraw amount age).1.taxable))
              (traditional_balance (mandatory_phase t.holdings amount age).1) ∧
      (t.withdraw amount age).1.roth
          = min (max 0 ((max 0 ((mandatory_phase t.holdings amount age).2
                  - (t.withdraw amount age).1.taxable))
                - (t.withdraw amount age).1.traditional))
              (roth_balance (mandatory_phase t.holdings amount age).1)) ∧
    (t.withdrawal_strategy = "traditional_first" →
      (t.withdraw amount age).1.traditional
          = min (mandatory_phase t.holdings amount age).2
              (traditional_balance (mandatory_phase t.holdings amount age).1) ∧
      (t.withdraw amount age).1.taxable
          = min (max 0 ((mandatory_phase t.holdings amount age).2
                - (t.withdraw amount age).1.traditional))
              (taxable_balance (mandatory_phase t.holdings amount age).1) ∧
      (t.withdraw amount age).1.roth
          = min (max 0 ((max 0 ((mandatory_phase t.holdings amount age).2
                  - (t.withdraw amount age).1.traditional))
                - (t.withdraw amount age).1.taxable))
              (roth_balance (mandatory_phase t.holdings amount age).1)) ∧
    (t.withdrawal_strategy = "roth_first" →
      (t.withdraw amount age).1.roth
          = min (mandatory_phase t.holdings amount age).2
              (roth_balance (mandatory_phase t.holdings amount age).1) ∧
      (t.withdraw amount age).1.taxable
          = min (max 0 ((mandatory_phase t.holdings amount age).2
                - (t.withdraw amount age).1.roth))
              (taxable_balance (mandatory_phase t.holdings amount age).1) ∧
      (t.withdraw amount age).1.traditional
          = min (max 0 ((max 0 ((mandatory_phase t.holdings amount age).2
                  - (t.withdraw amount age).1.roth))
                - (t.withdraw amount age).1.taxable))
              (traditional_balance (mandatory_phase t.holdings amount age).1)) ∧
    (t.withdrawal_strategy = "taxable_first" →
      (∀ h ∈ t.holdings, 0 ≤ h.balance) → age < 73 → 0 ≤ amount →
      amount ≤ taxable_balance t.holdings →
      traditional_balance (t.withdraw amount age).2.holdings
          = traditional_balance t.holdings ∧
      roth_balance (t.withdraw amount age).2.holdings = roth_balance t.holdings ∧
      taxable_balance (t.withdraw amount age).2.holdings
          = taxable_balance t.holdings - amount ∧
      (t.withdraw amount age).1.taxable = amount) := by
  refine ⟨?_, ?_, ?_, ?_⟩
  · intro hstrat
    have hne : ¬ t.withdrawal_strategy = "pro_rata" := by rw [hstrat]; simp
    have horder := order_lookup_taxable
      (dict_get WITHDRAWAL_ORDER ("taxable_first") [])
    simp only [HoldingsTracker.withdraw]
    rw [if_neg hne, hstrat, horder]
    simp only [sequential_withdraw, add_category_amount, cat_eq_tax_tax, cat_eq_trad_tax,
      cat_eq_trad_trad, cat_eq_roth_tax, cat_eq_roth_trad, if_true, if_false,
      taxable_balance, traditional_balance, roth_balance]
    rw [wfc_other_category _ TRADITIONAL_ACCOUNTS TAXABLE_ACCOUNTS _ trad_not_taxable]
    refine ⟨by ring, by ring, ?_⟩
    rw [wfc_other_category _ ROTH_ACCOUNTS TRADITIONAL_ACCOUNTS _ roth_not_trad,
      wfc_other_category _ ROTH_ACCOUNTS TAXABLE_ACCOUNTS _ roth_not_taxable]
    ring
  · intro hstrat
    have hne : ¬ t.withdrawal_strategy = "pro_rata" := by rw [hstrat]; simp
    have horder := order_lookup_traditional
      (dict_get WITHDRAWAL_ORDER ("taxable_first") [])
    simp only [HoldingsTracker.withdraw]
    rw [if_neg hne, hstrat, horder]
    simp only [sequential_withdraw, add_category_amount, cat_eq_tax_tax, cat_eq_trad_tax,
      cat_eq_trad_trad, cat_eq_roth_tax, cat_eq_roth_trad, cat_eq_tax_trad,
      if_true, if_false, taxable_balance, traditional_balance, roth_balance]
    rw [wfc_other_category _ TAXABLE_ACCOUNTS TRADITIONAL_ACCOUNTS _ taxable_not_trad]
    refine ⟨by ring, by ring, ?_⟩
    rw [wfc_other_category _ ROTH_ACCOUNTS TAXABLE_ACCOUNTS _ roth_not_taxable,
      wfc_other_category _ ROTH_ACCOUNTS TRADITIONAL_ACCOUNTS _ roth_not_trad]
    ring
  · intro hstrat
    have hne : ¬ t.withdrawal_strategy = "pro_rata" := by rw [hstrat]; simp
    have horder := order_lookup_roth
      (dict_get WITHDRAWAL_ORDER ("taxable_first") [])
    simp only [HoldingsTracker.withdraw]
    rw [if_neg hne, hstrat, horder]
    simp only [sequential_withdraw, add_category_amount, cat_eq_tax_tax, cat_eq_trad_tax,
      cat_eq_trad_trad, cat_eq_roth_tax, cat_eq_roth_trad, cat_eq_tax_trad,
      if_true, if_false, taxable_balance, traditional_balance, roth_balance]
    rw [wfc_other_category _ TAXABLE_ACCOUNTS ROTH_ACCOUNTS _ taxable_not_roth]
    refine ⟨by ring, by ring, ?_⟩
    rw [wfc_other_category _ TRADITIONAL_ACCOUNTS TAXABLE_ACCOUNTS _ trad_not_taxable,
      wfc_other_category _ TRADITIONAL_ACCOUNTS ROTH_ACCOUNTS _ trad_not_roth]
    ring
  · intro hstrat hb hage ha0 hale
    unfold taxable_balance at hale
    have hrmd0 : mandatory_rmd_withdrawal t.holdings age = 0 := by
      unfold mandatory_rmd_withdrawal tracker_calculate_rmd
      rw [if_neg (by omega)]
      exact min_eq_left (get_balance_nonneg _ _ hb)
    have hhs1 : (mandatory_phase t.holdings amount age).1 = t.holdings := by
      show withdraw_from_category _ _ _ = _
      rw [hrmd0]
      exact wfc_zero _ _ hb
    have hR1 : (mandatory_phase t.holdings amount age).2 = amount := by
      show max 0 (amount - mandatory_rmd_withdrawal t.holdings age) = amount
      rw [hrmd0, sub_zero]
      exact max_eq_right ha0
    have hne : ¬ t.withdrawal_strategy = "pro_rata" := by rw [hstrat]; simp
    have horder := order_lookup_taxable
      (dict_get WITHDRAWAL_ORDER ("taxable_first") [])
    simp only [HoldingsTracker.withdraw]
    rw [if_neg hne, hstrat, horder]
    simp only [sequential_withdraw, add_category_amount, cat_eq_tax_tax, cat_eq_trad_tax,
      cat_eq_trad_trad, cat_eq_roth_tax, cat_eq_roth_trad, if_true, if_false,
      taxable_balance, traditional_balance, roth_balance]
    rw [hhs1, hR1]
    rw [min_eq_left hale]
    rw [sub_self, max_self]
    rw [wfc_other_category _ TRADITIONAL_ACCOUNTS TAXABLE_ACCOUNTS _ trad_not_taxable]
    rw [min_eq_left (get_balance_nonneg _ _ hb)]
    have hb2 := wfc_nonneg t.holdings TAXABLE_ACCOUNTS amount hb
    rw [wfc_zero _ TRADITIONAL_ACCOUNTS hb2]
    rw [sub_zero, max_self]
    rw [wfc_other_category _ ROTH_ACCOUNTS TAXABLE_ACCOUNTS _ roth_not_taxable]
    rw [min_eq_left (get_balance_nonneg _ _ hb)]
    rw [wfc_zero _ ROTH_ACCOUNTS hb2]
    refine ⟨?_, ?_, ?_, by ring⟩
    · exact wfc_other_category _ TRADITIONAL_ACCOUNTS TAXABLE_ACCOUNTS _ trad_not_taxable
    · exact wfc_other_category _ ROTH_ACCOUNTS TAXABLE_ACCOUNTS _ roth_not_taxable
    · exact wfc_cat_balance t.holdings TAXABLE_ACCOUNTS amount hb ha0 hale

/-- Witness tracker for C6, mirroring the source's taxable-first test. -/
def c6_tracker : HoldingsTracker :=
  ⟨[⟨AccountType.traditional_401k, "vt", 100000⟩, ⟨AccountType.taxable, "vt", 50000⟩],
   "taxable_first"⟩

/-- Witness for C6 at a concrete input: a 50000 `taxable_first` withdrawal at
age 60 leaves traditional/roth untouched and debits taxable by 50000. -/
theorem ordered_strategy_cascade_witness :
    traditional_balance (c6_tracker.withdraw 50000 60).2.holdings
        = traditional_balance c6_tracker.holdings ∧
    roth_balance (c6_tracker.withdraw 50000 60).2.holdings
        = roth_balance c6_tracker.holdings ∧
    taxable_balance (c6_tracker.withdraw 50000 60).2.holdings
        = taxable_balance c6_tracker.holdings - 50000 ∧
    (c6_tracker.withdraw 50000 60).1.taxable = 50000 :=
  (ordered_strategy_cascade c6_tracker 50000 60).2.2.2 rfl
    (by simp [c6_tracker])
    (by decide)
    (by simp)
    (by simp [c6_tracker, taxable_balance, get_balance_by_account_category,
      TAXABLE_ACCOUNTS, List.filter_cons])

/- ---------- unknown strategies (C10) ---------- -/

lemma order_lookup_unknown (s : String) (d : List (List AccountType))
    (h1 : s ≠ "taxable_first") (h2 : s ≠ "traditional_first") (h3 : s ≠ "roth_first") :
    dict_get WITHDRAWAL_ORDER s d = d := by
  simp [WITHDRAWAL_ORDER, dict_get, h1, h2, h3]

/-- C10: an unrecognized withdrawal-strategy string is silently accepted and
behaves exactly like `taxable_first`: same returned amounts and same resulting
holdings for the same inputs. -/
theorem unknown_strategy_is_taxable_first (t : HoldingsTracker) (amount : ℚ) (age : ℕ)
    (hne : t.withdrawal_strategy ∉
      (["pro_rata", "taxable_first", "traditional_first", "roth_first"] : List String)) :
    (t.withdraw amount age).1
        = (HoldingsTracker.withdraw ⟨t.holdings, "taxable_first"⟩ amount age).1 ∧
    (t.withdraw amount age).2.holdings
        = (HoldingsTracker.withdraw ⟨t.holdings, "taxable_first"⟩ amount age).2.holdings := by
  simp only [List.mem_cons, List.not_mem_nil, or_false, not_or] at hne
  obtain ⟨h0, h1, h2, h3⟩ := hne
  simp only [HoldingsTracker.withdraw]
  rw [if_neg h0, if_neg (by simp : ¬ ("taxable_first" : String) = "pro_rata")]
  rw [order_lookup_unknown t.withdrawal_strategy _ h1 h2 h3]
  rw [order_lookup_taxable (dict_get WITHDRAWAL_ORDER ("taxable_first") []),
    order_lookup_taxable []]
  exact ⟨rfl, rfl⟩

/-- Witness tracker for C10 with an unrecognized strategy string. -/
def c10_tracker : HoldingsTracker :=
  ⟨[⟨AccountType.taxable, "vt", 40⟩, ⟨AccountType.roth_ira, "vt", 60⟩], "alphabetical"⟩

/-- Witness for C10 at a concrete input. -/
theorem unknown_strategy_is_taxable_first_witness :
    (c10_tracker.withdraw 70 80).1
        = (HoldingsTracker.withdraw ⟨c10_tracker.holdings, "taxable_first"⟩ 70 80).1 ∧
    (c10_tracker.withdraw 70 80).2.holdings
        = (HoldingsTracker.withdraw ⟨c10_tracker.holdings, "taxable_first"⟩ 70 80).2.holdings :=
  unknown_strategy_is_taxable_first c10_tracker 70 80 (by simp [c10_tracker])

/- ===================== simulation.py (MonteCarloSimulator.run) ===================== -/

/-- One simulation run of `MonteCarloSimulator.run` after all randomness and
external-service outputs are drawn: the pre-generated return matrix, the
per-year guaranteed-income totals, the (opaque, external) tax-service outputs
and the mortality mask.  `either_alive` follows the spec contract of the
mortality engine (generate_alive_mask / generate_joint_alive_mask, whose
module is not part of the engine sources); the run only reads the mask. -/
structure MCRun where
  n_paths : ℕ
  n_years : ℕ
  initial_capital : ℚ
  annual_spending : ℚ
  dividend_yield : ℚ
  include_mortality : Bool
  annual_returns : ℕ → ℕ → ℚ
  total_guaranteed : ℕ → ℕ → ℚ
  tax_output : ℕ → ℕ → ℚ
  either_alive : ℕ → ℕ → Bool

/-- The effective alive mask: all-ones when `include_mortality` is off. -/
def MCRun.alive (r : MCRun) (i y : ℕ) : Bool :=
  if r.include_mortality then r.either_alive i y else true

/-- `net_need = max(0, annual_spending - total_guaranteed)`. -/
def net_need (r : MCRun) (i y : ℕ) : ℚ :=
  max 0 (r.annual_spending - r.total_guaranteed i y)

/-- `estimated_taxes = max(0, tax_service_output)`. -/
def estimated_taxes (r : MCRun) (i y : ℕ) : ℚ :=
  max 0 (r.tax_output i y)

/-- `gross_withdrawal = net_need + estimated_taxes`. -/
def gross_withdrawal (r : MCRun) (i y : ℕ) : ℚ :=
  net_need r i y + estimated_taxes r i y

/-- `new_value = value + value*return + value*dividend_yield - gross_withdrawal`. -/
def new_value (r : MCRun) (v : ℚ) (i y : ℕ) : ℚ :=
  v + v * r.annual_returns i y + v * r.dividend_yield - gross_withdrawal r i y

/-- `active = (value > 0) & alive[:, year]`; the year body is skipped when no
path is active. -/
def any_active (r : MCRun) (vals : ℕ → ℚ) (y : ℕ) : Bool :=
  (List.range r.n_paths).any (fun i => decide (0 < vals i) && r.alive i y)

/-- One iteration of the year loop acting on (paths column, failure_year):
when some path is active, every path value is clamped to `max(0, new_value)`
and first depletions are recorded as `year + 1`; when no path is active the
whole year is skipped, so the next column keeps its initial zeros and
`failure_year` is untouched. -/
def year_step (r : MCRun) (y : ℕ) (st : (ℕ → ℚ) × (ℕ → ℕ)) : (ℕ → ℚ) × (ℕ → ℕ) :=
  if any_active r st.1 y then
    (fun i => max 0 (new_value r (st.1 i) i y),
     fun i => if 0 < st.1 i ∧ new_value r (st.1 i) i y ≤ 0 ∧ y < st.2 i
              then y + 1 else st.2 i)
  else
    (fun _ => 0, st.2)

/-- The run state after `y` years: column 0 is `initial_capital` everywhere and
`failure_year` starts at the sentinel `n_years + 1`. -/
def sim_state (r : MCRun) : ℕ → (ℕ → ℚ) × (ℕ → ℕ)
  | 0 => (fun _ => r.initial_capital, fun _ => r.n_years + 1)
  | y + 1 => year_step r y (sim_state r y)

/-- `paths[i, y]`. -/
def path_value (r : MCRun) (y i : ℕ) : ℚ := (sim_state r y).1 i

/-- `failure_year[i]` after the full loop. -/
def failure_year (r : MCRun) (i : ℕ) : ℕ := (sim_state r r.n_years).2 i

/-- The success mask of simulation.py: `failure_year > n_years`, or-ed (when
mortality is on) with `~either_alive[:, -1]`. -/
def success_mask (r : MCRun) (i : ℕ) : Bool :=
  if r.include_mortality then
    decide (r.n_years < failure_year r i) || !(r.either_alive i r.n_years)
  else
    decide (r.n_years < failure_year r i)

/-- `success_rate = np.mean(success_mask)`. -/
def success_rate (r : MCRun) : ℚ :=
  (((List.range r.n_paths).countP (fun i => success_mask r i) : ℕ) : ℚ) / (r.n_paths : ℚ)

/-- The success notion of claim C1: never depleted, or the individual was
already dead in the year the depleting step ran (died before depletion). -/
def claimed_success_mask (r : MCRun) (i : ℕ) : Bool :=
  decide (r.n_years < failure_year r i) || !(r.alive i (failure_year r i - 1))

/-- Path fraction corresponding to `claimed_success_mask`. -/
def claimed_success_rate (r : MCRun) : ℚ :=
  (((List.range r.n_paths).countP (fun i => claimed_success_mask r i) : ℕ) : ℚ) / (r.n_paths : ℚ)

/- ---------- C7: nonnegativity and absorption of zero ---------- -/

lemma gross_withdrawal_nonneg (r : MCRun) (i y : ℕ) : 0 ≤ gross_withdrawal r i y :=
  add_nonneg (le_max_left _ _) (le_max_left _ _)

lemma year_step_at_zero (r : MCRun) (y : ℕ) (st : (ℕ → ℚ) × (ℕ → ℕ)) (i : ℕ)
    (hz : st.1 i = 0) : (year_step r y st).1 i = 0 := by
  unfold year_step
  split
  · show max 0 (new_value r (st.1 i) i y) = 0
    rw [hz]
    refine max_eq_left ?_
    unfold new_value
    have := gross_withdrawal_nonneg r i y
    linarith
  · rfl

/-- C7: every recorded portfolio value is nonnegative, and zero is absorbing:
once a path's value is 0 at some year it stays 0 at all later years, whether
or not the individual is still alive (the mask never re-activates a value). -/
theorem path_values_nonneg_and_zero_absorbing (r : MCRun) (h0 : 0 < r.initial_capital) :
    (∀ y i, 0 ≤ path_value r y i) ∧
    (∀ t i, path_value r t i = 0 → ∀ u, t ≤ u → path_value r u i = 0) := by
  constructor
  · intro y i
    cases y with
    | zero => exact h0.le
    | succ y =>
        show 0 ≤ (year_step r y (sim_state r y)).1 i
        unfold year_step
        split
        · exact le_max_left _ _
        · exact le_refl 0
  · intro t i hzero u hle
    induction u, hle using Nat.le_induction with
    | base => exact hzero
    | succ u hu ih =>
        show (year_step r u (sim_state r u)).1 i = 0
        exact year_step_at_zero r u (sim_state r u) i ih

/-- Witness run for C7. -/
def c7_run : MCRun :=
  { n_paths := 2, n_years := 3, initial_capital := 100, annual_spending := 80,
    dividend_yield := 0, include_mortality := true,
    annual_returns := fun _ _ => 0, total_guaranteed := fun _ _ => 0,
    tax_output := fun _ _ => 0, either_alive := fun _ y => decide (y ≤ 1) }

/-- Witness for C7 at a concrete run. -/
theorem path_values_nonneg_and_zero_absorbing_witness :
    (0 : ℚ) < c7_run.initial_capital ∧
    ((∀ y i, 0 ≤ path_value c7_run y i) ∧
     (∀ t i, path_value c7_run t i = 0 → ∀ u, t ≤ u → path_value c7_run u i = 0)) :=
  ⟨by simp [c7_run], path_values_nonneg_and_zero_absorbing c7_run (by simp [c7_run])⟩

/- ---------- C1: the success mask versus "died before depletion" ---------- -/

/-- Failing input for C1: one path over two years with mortality on.  The path
depletes in the first year while the individual is alive (spending 200 against
100 of capital with no income, returns and taxes drawn as 0), and the
individual is dead by the final year. -/
def c1_run : MCRun :=
  { n_paths := 1, n_years := 2, initial_capital := 100, annual_spending := 200,
    dividend_yield := 0, include_mortality := true,
    annual_returns := fun _ _ => 0, total_guaranteed := fun _ _ => 0,
    tax_output := fun _ _ => 0, either_alive := fun _ y => decide (y = 0) }

/-- C1 failing input, evaluated: the path runs out in year 1 while alive
(alive at year 0, dead from year 1 on), yet `success_rate` is 1 because the
code only checks `~either_alive[:, -1]`; the claim's "died before depletion"
reading makes this path a failure (rate 0). -/
theorem success_mask_counts_depleted_then_dead_as_success :
    failure_year c1_run 0 = 1 ∧
    c1_run.either_alive 0 0 = true ∧
    c1_run.either_alive 0 2 = false ∧
    success_rate c1_run = 1 ∧
    claimed_success_rate c1_run = 0 := by
  refine ⟨?_, by simp [c1_run], by simp [c1_run], ?_, ?_⟩ <;>
  · first
    | (simp [c1_run, success_rate, claimed_success_rate, success_mask, claimed_success_mask,
        failure_year, sim_state, year_step, any_active, MCRun.alive, new_value,
        gross_withdrawal, net_need, estimated_taxes, path_value, List.range_succ];
       done)
    | (simp [c1_run, success_rate, claimed_success_rate, success_mask, claimed_success_mask,
        failure_year, sim_state, year_step, any_active, MCRun.alive, new_value,
        gross_withdrawal, net_need, estimated_taxes, path_value, List.range_succ];
       norm_num)

/- ---------- C8: seeding of the simulator (simulation.py lines 22-26) ---------- -/

/-- Modelled from the spec: the `SimulationInput` parameter record consumed by
`MonteCarloSimulator` (eggnest/models.py is not among the engine sources;
fields mirror spec section 3 and finsim/models.py).  Note there is no seed
field. -/
structure SimulationInput where
  initial_capital : ℚ
  annual_spending : ℚ
  current_age : ℕ
  max_age : ℕ
  gender : String
  state : String
  filing_status : String
  n_simulations : ℕ
  include_mortality : Bool
  expected_return : ℚ
  return_volatility : ℚ
  dividend_yield : ℚ
  withdrawal_strategy : String
  deriving DecidableEq, Repr

/-- Model of a numpy generator state: `np.random.default_rng()` with no
arguments draws fresh OS entropy; the state is a function of that entropy
alone. -/
structure RngState where
  entropy : ℕ
  deriving DecidableEq, Repr

/-- `np.random.default_rng()` (no seed argument anywhere in simulation.py). -/
def default_rng (ambient_entropy : ℕ) : RngState := ⟨ambient_entropy⟩

/-- The state `MonteCarloSimulator.__init__` builds. -/
structure MonteCarloSimulatorState where
  params : SimulationInput
  rng : RngState
  deriving DecidableEq, Repr

/-- `MonteCarloSimulator.__init__(params)`: stores the params and
unconditionally creates a fresh unseeded generator.  No constructor argument
and no field of `SimulationInput` reaches the generator. -/
def monte_carlo_simulator_init (params : SimulationInput) (ambient_entropy : ℕ) :
    MonteCarloSimulatorState :=
  { params := params, rng := default_rng ambient_entropy }

/-- A run identical to `c8_run_b` except for the drawn returns; spending 50
against capital 100 with zero returns survives the single year. -/
def c8_run_a : MCRun :=
  { n_paths := 1, n_years := 1, initial_capital := 100, annual_spending := 50,
    dividend_yield := 0, include_mortality := false,
    annual_returns := fun _ _ => 0, total_guaranteed := fun _ _ => 0,
    tax_output := fun _ _ => 0, either_alive := fun _ _ => true }

/-- Same simulation inputs as `c8_run_a` but a different draw of the returns
(a -200% year), which depletes the path. -/
def c8_run_b : MCRun :=
  { c8_run_a with annual_returns := fun _ _ => -2 }

/-- C8: the generator the simulator uses is a function of ambient OS entropy
only - it is identical across arbitrary parameter records and no input can pin
it (there is no way to supply a seed) - while the run outcome genuinely
depends on the drawn randomness, so re-runs are not reproducible. -/
theorem simulator_rng_ignores_all_inputs :
    (∀ (p q : SimulationInput) (e : ℕ),
      (monte_carlo_simulator_init p e).rng = (monte_carlo_simulator_init q e).rng ∧
      (monte_carlo_simulator_init p e).rng = default_rng e) ∧
    success_rate c8_run_a = 1 ∧ success_rate c8_run_b = 0 ∧
    success_rate c8_run_a ≠ success_rate c8_run_b := by
  refine ⟨fun p q e => ⟨rfl, rfl⟩, ?_, ?_, ?_⟩
  · simp [c8_run_a, success_rate, success_mask, failure_year, sim_state, year_step,
      any_active, MCRun.alive, new_value, gross_withdrawal, net_need, estimated_taxes,
      List.range_succ]
    norm_num
  · simp [c8_run_b, c8_run_a, success_rate, success_mask, failure_year, sim_state,
      year_step, any_active, MCRun.alive, new_value, gross_withdrawal, net_need,
      estimated_taxes, List.range_succ]
    norm_num
  · simp [c8_run_b, c8_run_a, success_rate, success_mask, failure_year, sim_state,
      year_step, any_active, MCRun.alive, new_value, gross_withdrawal, net_need,
      estimated_taxes, List.range_succ]
    norm_num

/- ===================== returns.py (generate_blended_returns) ===================== -/

/-- HISTORICAL_REAL_RETURNS values from returns.py (97 entries, 1928-2024). -/
def RETURNS_ARRAY : List ℚ :=
  [0.3788, (-0.1466 : ℚ), (-0.2590 : ℚ), (-0.3812 : ℚ), (-0.1221 : ℚ), 0.4698,
   0.0203, 0.4391, 0.3172, (-0.3534 : ℚ), 0.2541, 0.0341,
   (-0.1524 : ℚ), (-0.1963 : ℚ), 0.1080, 0.2282, 0.1680, 0.3445,
   (-0.2610 : ℚ), (-0.0455 : ℚ), (-0.0177 : ℚ), 0.1888, 0.2416, 0.1334,
   0.1181, 0.0053, 0.5256, 0.2618, 0.0376, (-0.1392 : ℚ),
   0.4161, 0.0892, 0.0148, 0.2563, (-0.1010 : ℚ), 0.2046,
   0.1502, 0.1024, (-0.1309 : ℚ), 0.2009, 0.0611, (-0.1411 : ℚ),
   (-0.0112 : ℚ), 0.0984, 0.1537, (-0.2359 : ℚ), (-0.3649 : ℚ), 0.2831,
   0.1881, (-0.1167 : ℚ), (-0.0175 : ℚ), 0.0539, 0.1867, (-0.1437 : ℚ),
   0.1476, 0.1899, 0.0181, 0.2633, 0.1462, 0.0203,
   0.1194, 0.2689, (-0.0921 : ℚ), 0.2631, 0.0450, 0.0726,
   (-0.0154 : ℚ), 0.3417, 0.1932, 0.3101, 0.2667, 0.1853,
   (-0.1214 : ℚ), (-0.1311 : ℚ), (-0.2336 : ℚ), 0.2638, 0.0769, 0.0149,
   0.1324, 0.0141, (-0.3849 : ℚ), 0.2345, 0.1278, (-0.0124 : ℚ),
   0.1426, 0.3017, 0.1139, (-0.0073 : ℚ), 0.0954, 0.1942,
   (-0.0624 : ℚ), 0.2880, 0.1612, 0.2147, (-0.2512 : ℚ), 0.2256,
   0.2310]

/-- HISTORICAL_BOND_RETURNS values from returns.py (97 entries, 1928-2024). -/
def BOND_RETURNS_ARRAY : List ℚ :=
  [0.0201, 0.0360, 0.1168, 0.0745, 0.2125, 0.0108,
   0.0635, 0.0144, 0.0352, (-0.0144 : ℚ), 0.0719, 0.0441,
   0.0465, (-0.1087 : ℚ), (-0.0618 : ℚ), (-0.0046 : ℚ), 0.0027, 0.0152,
   (-0.1270 : ℚ), (-0.0727 : ℚ), (-0.0101 : ℚ), 0.0688, (-0.0519 : ℚ), (-0.0594 : ℚ),
   0.0150, 0.0337, 0.0406, (-0.0170 : ℚ), (-0.0509 : ℚ), 0.0379,
   (-0.0379 : ℚ), (-0.0430 : ℚ), 0.1014, 0.0138, 0.0430, 0.0004,
   0.0273, (-0.0118 : ℚ), (-0.0053 : ℚ), (-0.0448 : ℚ), (-0.0138 : ℚ), (-0.1056 : ℚ),
   0.1059, 0.0631, (-0.0057 : ℚ), (-0.0464 : ℚ), (-0.0921 : ℚ), (-0.0312 : ℚ),
   0.1060, (-0.0507 : ℚ), (-0.0899 : ℚ), (-0.1114 : ℚ), (-0.1378 : ℚ), (-0.0066 : ℚ),
   0.2792, (-0.0057 : ℚ), 0.0941, 0.2111, 0.2293, (-0.0900 : ℚ),
   0.0364, 0.1247, 0.0012, 0.1159, 0.0628, 0.1116,
   (-0.1043 : ℚ), 0.2042, (-0.0183 : ℚ), 0.0810, 0.1310, (-0.1065 : ℚ),
   0.1283, 0.0396, 0.1244, (-0.0148 : ℚ), 0.0120, (-0.0053 : ℚ),
   (-0.0057 : ℚ), 0.0589, 0.1999, (-0.1347 : ℚ), 0.0686, 0.1270,
   0.0121, (-0.1045 : ℚ), 0.0991, 0.0055, (-0.0136 : ℚ), 0.0068,
   (-0.0189 : ℚ), 0.0719, 0.0984, (-0.1070 : ℚ), (-0.2281 : ℚ), 0.0051,
   (-0.0427 : ℚ)]

/-- VT_REAL_RETURNS values from returns.py (17 entries, 2008-2024). -/
def VT_RETURNS_ARRAY : List ℚ :=
  [(-0.4440 : ℚ), 0.3318, 0.1130, (-0.1038 : ℚ), 0.1471, 0.2113,
   0.0204, (-0.0196 : ℚ), 0.0711, 0.2192, (-0.1186 : ℚ), 0.2458,
   0.1523, 0.1296, (-0.2408 : ℚ), 0.1723, 0.1320]

/-- BND_REAL_RETURNS values from returns.py (18 entries, 2007-2024). -/
def BND_RETURNS_ARRAY : List ℚ :=
  [0.0408, 0.0295, 0.0405, 0.0453, 0.0457, 0.0175,
   (-0.0355 : ℚ), 0.0415, 0.0046, 0.0121, 0.0143, (-0.0245 : ℚ),
   0.0692, 0.0643, (-0.0626 : ℚ), (-0.1955 : ℚ), 0.0150, (-0.0147 : ℚ)]

/-- `generate_blended_returns` from returns.py.  All randomness consumed by the
numpy generator is supplied as explicit draw streams: `idx_draw i k` models the
k-th `rng.integers(0, bound)` draw for path `i` (interpreted modulo the bound,
matching the uniform support), and `z_stock`/`z_bond` model standard normal
draws so that `rng.normal(m, s)` becomes `m + s * z`.  The produced matrix is a
total function read on `[0, n_simulations) x [0, n_years)`.  The allocation
guard raises before any sampling; an unknown method raises after sampling
method dispatch, exactly as in the source. -/
def generate_blended_returns (n_simulations n_years : ℕ) (stock_allocation : ℚ)
    (method : String) (block_size : ℕ)
    (expected_stock_return stock_volatility expected_bond_return bond_volatility : ℚ)
    (stock_index bond_index : String)
    (idx_draw : ℕ → ℕ → ℕ) (z_stock z_bond : ℕ → ℕ → ℚ) :
    Except String (ℕ → ℕ → ℚ) :=
  if ¬ (0 ≤ stock_allocation ∧ stock_allocation ≤ 1) then
    Except.error ("stock_allocation must be between 0 and 1")
  else
    let stock_sel := if stock_index = "vt" then VT_RETURNS_ARRAY else RETURNS_ARRAY
    let bond_sel := if bond_index = "bnd" then BND_RETURNS_ARRAY else BOND_RETURNS_ARRAY
    let n_stock_years := stock_sel.length
    let n_bond_years := bond_sel.length
    let stock_returns_array :=
      if stock_index = "vt" ∧ bond_index = "bnd" then stock_sel
      else if stock_index = "vt" then stock_sel
      else if bond_index = "bnd" then RETURNS_ARRAY.drop (RETURNS_ARRAY.length - n_bond_years)
      else stock_sel
    let bond_returns_array :=
      if stock_index = "vt" ∧ bond_index = "bnd" then bond_sel.drop 1
      else if stock_index = "vt" then
        BOND_RETURNS_ARRAY.drop (BOND_RETURNS_ARRAY.length - n_stock_years)
      else bond_sel
    let n_historical :=
      if stock_index = "vt" ∧ bond_index = "bnd" then n_stock_years
      else if stock_index = "vt" then n_stock_years
      else if bond_index = "bnd" then n_bond_years
      else min n_stock_years n_bond_years
    if stock_allocation = 1 ∧ method = "bootstrap" then
      Except.ok (fun i j => stock_returns_array.getD (idx_draw i j % n_historical) 0)
    else if stock_allocation = 1 ∧ method = "normal" then
      Except.ok (fun i j => expected_stock_return + stock_volatility * z_stock i j)
    else
      let bond_allocation := 1 - stock_allocation
      if method = "bootstrap" then
        Except.ok (fun i j =>
          stock_allocation * stock_returns_array.getD (idx_draw i j % n_historical) 0
          + bond_allocation * bond_returns_array.getD (idx_draw i j % n_historical) 0)
      else if method = "block_bootstrap" then
        Except.ok (fun i j =>
          stock_allocation * stock_returns_array.getD
            ((idx_draw i (j / block_size) % (n_historical - block_size + 1)) + j % block_size) 0
          + bond_allocation * bond_returns_array.getD
            ((idx_draw i (j / block_size) % (n_historical - block_size + 1)) + j % block_size) 0)
      else if method = "historical" then
        Except.ok (fun i j =>
          stock_allocation * stock_returns_array.getD ((idx_draw i 0 + j) % n_historical) 0
          + bond_allocation * bond_returns_array.getD ((idx_draw i 0 + j) % n_historical) 0)
      else if method = "normal" then
        Except.ok (fun i j =>
          stock_allocation * (expected_stock_return + stock_volatility * z_stock i j)
          + bond_allocation * (expected_bond_return + bond_volatility * z_bond i j))
      else
        Except.error ("Unknown method")

set_option maxHeartbeats 4000000 in
/-- C9: an allocation outside [0,1] raises the allocation `ValueError` before
any sampling (for every method, every index choice and every draw stream);
an allocation inside [0,1] never raises on account of the allocation - the
only other raise is the unknown-method error. -/
theorem blended_returns_allocation_guard (n_simulations n_years : ℕ)
    (stock_allocation : ℚ) (method : String) (block_size : ℕ)
    (esr sv ebr bv : ℚ) (stock_index bond_index : String)
    (idx_draw : ℕ → ℕ → ℕ) (z_stock z_bond : ℕ → ℕ → ℚ) :
    (¬ (0 ≤ stock_allocation ∧ stock_allocation ≤ 1) →
      generate_blended_returns n_simulations n_years stock_allocation method block_size
          esr sv ebr bv stock_index bond_index idx_draw z_stock z_bond
        = Except.error ("stock_allocation must be between 0 and 1")) ∧
    ((0 ≤ stock_allocation ∧ stock_allocation ≤ 1) →
      ∀ e, generate_blended_returns n_simulations n_years stock_allocation method block_size
          esr sv ebr bv stock_index bond_index idx_draw z_stock z_bond
        = Except.error e → e = "Unknown method") := by
  constructor
  · intro h
    unfold generate_blended_returns
    rw [if_pos h]
  · intro h e he
    unfold generate_blended_returns at he
    rw [if_neg (not_not_intro h)] at he
    simp only at he
    split_ifs at he
    all_goals first
      | exact Except.noConfusion he
      | (injection he with h2; exact h2.symm)

/-- Witness for C9 at concrete inputs: allocation -1 raises the allocation
error; allocation 0 (a valid value) can only raise the unknown-method error. -/
theorem blended_returns_allocation_guard_witness :
    generate_blended_returns 10 5 (-1) ("bootstrap") 5 0 0 0 0 ("vt") ("bnd")
        (fun _ _ => 0) (fun _ _ => 0) (fun _ _ => 0)
      = Except.error ("stock_allocation must be between 0 and 1") ∧
    (∀ e, generate_blended_returns 10 5 0 ("bad_method") 5 0 0 0 0 ("vt") ("bnd")
        (fun _ _ => 0) (fun _ _ => 0) (fun _ _ => 0)
      = Except.error e → e = "Unknown method") :=
  ⟨(blended_returns_allocation_guard 10 5 (-1) ("bootstrap") 5 0 0 0 0 ("vt") ("bnd")
      (fun _ _ => 0) (fun _ _ => 0) (fun _ _ => 0)).1 (by simp),
   (blended_returns_allocation_guard 10 5 0 ("bad_method") 5 0 0 0 0 ("vt") ("bnd")
      (fun _ _ => 0) (fun _ _ => 0) (fun _ _ => 0)).2 (by simp)⟩
